import Mathlib

/-!
Verification of the AniList Discord bot core
(`src/modules/AnimeStatsService.js`): the expiring cache, the stats
aggregator, the cover lookup, and the two command orchestrators, embedded
shallowly in Lean.  Times (`Date.now()`) are modelled as integers in
milliseconds; the JS `Map` backing the cache is modelled as a function
from keys to optional entries; JS exceptions are modelled with `Except`
or explicit control flow.
-/

/-- A cache entry exactly as built by `CacheService.set`:
`{ value, timestamp: Date.now() }`. -/
structure CacheEntry (α : Type) where
  value : α
  timestamp : ℤ
deriving Repr

/-- The `CacheService` class: a map from string keys to entries plus a
global TTL (in ms, default 300000). -/
structure CacheService (α : Type) where
  cache : String → Option (CacheEntry α)
  ttl : ℤ

/-- The `new CacheService()` constructor with the default 5-minute TTL. -/
def CacheService.mk5min (α : Type) : CacheService α :=
  { cache := fun _ => none, ttl := 300000 }

/-- `CacheService.set(key, value)`: stores `{value, timestamp: now}`,
overwriting any existing entry, and returns the stored value. -/
def CacheService.set (c : CacheService α) (now : ℤ) (key : String) (value : α) :
    α × CacheService α :=
  (value,
   { c with cache := fun k => if k = key then some ⟨value, now⟩ else c.cache k })

/-- `CacheService.get(key)`: `null` (here `none`) when no entry; when the
entry is expired (`now - timestamp > ttl`) deletes it and returns `null`;
otherwise returns the stored value.  The second component is the cache
after the call (the delete is a side effect of the read). -/
def CacheService.get (c : CacheService α) (now : ℤ) (key : String) :
    Option α × CacheService α :=
  match c.cache key with
  | none => (none, c)
  | some e =>
      if now - e.timestamp > c.ttl then
        (none, { c with cache := fun k => if k = key then none else c.cache k })
      else
        (some e.value, c)

/-- `CacheService.clear(key)`: unconditionally deletes the entry. -/
def CacheService.clear (c : CacheService α) (key : String) : CacheService α :=
  { c with cache := fun k => if k = key then none else c.cache k }

/-- Non-mutating visibility: what a `get` at time `now` would return,
without performing the lazy delete.  Used to state observational
equivalence of cache states. -/
def CacheService.peek (c : CacheService α) (now : ℤ) (key : String) : Option α :=
  match c.cache key with
  | none => none
  | some e => if now - e.timestamp > c.ttl then none else some e.value

/-- A fragment of the JS value universe, enough to express that the cache
can store `null` itself.  `get` returns the JS value `null` both for a
missing/expired entry and for a stored `null`. -/
inductive JsVal where
  | jsNull
  | num (n : ℤ)
  | str (s : String)
deriving DecidableEq, Repr

/-- `CacheService.get` as the JS caller sees it: the `none` of the model
is the JS value `null`. -/
def CacheService.getJs (c : CacheService JsVal) (now : ℤ) (key : String) :
    JsVal × CacheService JsVal :=
  let r := c.get now key
  (r.1.getD JsVal.jsNull, r.2)

-- Basic cache lemmas shared by several claims.

theorem CacheService.ttl_set (c : CacheService α) (now : ℤ) (k : String) (v : α) :
    ((c.set now k v).2).ttl = c.ttl := rfl

theorem CacheService.cache_set_same (c : CacheService α) (now : ℤ) (k : String) (v : α) :
    ((c.set now k v).2).cache k = some ⟨v, now⟩ := by
  simp [CacheService.set]

theorem CacheService.get_set_fresh (c : CacheService α) (t₀ t : ℤ) (k : String) (v : α)
    (h : t - t₀ ≤ c.ttl) :
    ((c.set t₀ k v).2).get t k = (some v, (c.set t₀ k v).2) := by
  have hlt : ¬ c.ttl < t - t₀ := by omega
  simp [CacheService.set, CacheService.get, hlt]

/-- C2 (claim as stated) fails at the boundary: with the default TTL of
300000 ms, an entry written at time 0 is still returned by `get` at time
exactly `createdAt + ttl = 300000`, where the claim demands absence.  The
source expires only when `now - timestamp > ttl` (strictly). -/
theorem cache_expiry_boundary_counterexample :
    (((CacheService.mk5min ℤ).set 0 "k" 42).2.get 300000 "k").1 = some 42 ∧
    (0 : ℤ) + (CacheService.mk5min ℤ).ttl ≤ 300000 := by
  constructor
  · simp [CacheService.mk5min, CacheService.set, CacheService.get]
  · simp [CacheService.mk5min]

/-- C2 (amended): after `set(k, v)` at time `t₀`, `get(k)` at time `t`
returns `v` whenever `t ≤ t₀ + ttl` (in particular for every
`t < t₀ + ttl`), and for `t > t₀ + ttl` it returns absent, deletes the
entry, and every subsequent `get` (before any new `set`) is also absent. -/
theorem cache_expiry (c : CacheService α) (k : String) (v : α) (t₀ t : ℤ) :
    (t ≤ t₀ + c.ttl → ((c.set t₀ k v).2.get t k).1 = some v) ∧
    (t₀ + c.ttl < t →
      ((c.set t₀ k v).2.get t k).1 = none ∧
      ((c.set t₀ k v).2.get t k).2.cache k = none ∧
      ∀ t' : ℤ, (((c.set t₀ k v).2.get t k).2.get t' k).1 = none) := by
  constructor
  · intro h
    have hlt : ¬ c.ttl < t - t₀ := by omega
    simp [CacheService.set, CacheService.get, hlt]
  · intro h
    have hgt : c.ttl < t - t₀ := by omega
    refine ⟨?_, ?_, ?_⟩
    · simp [CacheService.set, CacheService.get, hgt]
    · simp [CacheService.set, CacheService.get, hgt]
    · intro t'
      simp [CacheService.set, CacheService.get, hgt]

/-- Witness for `cache_expiry`: both sides exercised at concrete inputs
(default TTL 300000; a fresh read at 5 ms and an expired read at
300001 ms). -/
theorem cache_expiry_witness :
    ((((CacheService.mk5min ℤ).set 0 "k" 7).2.get 5 "k").1 = some 7) ∧
    ((((CacheService.mk5min ℤ).set 0 "k" 7).2.get 300001 "k").1 = none) := by
  refine ⟨(cache_expiry (CacheService.mk5min ℤ) "k" 7 0 5).1 (by decide), ?_⟩
  exact ((cache_expiry (CacheService.mk5min ℤ) "k" 7 0 300001).2 (by decide)).1

/-- C10: storing the JS value `null` is indistinguishable at the `get`
interface from never having set the key: `get` returns `null` in both
cases (and after expiry as well). -/
theorem cache_null_indistinguishable (c : CacheService JsVal) (t₀ t : ℤ) (k : String) :
    (((c.set t₀ k JsVal.jsNull).2.getJs t k).1 = JsVal.jsNull) ∧
    (∀ c' : CacheService JsVal, c'.cache k = none → (c'.getJs t k).1 = JsVal.jsNull) := by
  constructor
  · by_cases h : t - t₀ > c.ttl
    · simp [CacheService.set, CacheService.getJs, CacheService.get, h]
    · simp [CacheService.set, CacheService.getJs, CacheService.get, h]
  · intro c' h
    simp [CacheService.getJs, CacheService.get, h]

/-- Witness for `cache_null_indistinguishable`: on the empty cache the
never-set read also yields `null`. -/
theorem cache_null_indistinguishable_witness :
    (((CacheService.mk5min JsVal).set 0 "k" JsVal.jsNull).2.getJs 5 "k").1 = JsVal.jsNull ∧
    ((CacheService.mk5min JsVal).getJs 5 "k").1 = JsVal.jsNull := by
  refine ⟨(cache_null_indistinguishable (CacheService.mk5min JsVal) 0 5 "k").1, ?_⟩
  exact (cache_null_indistinguishable (CacheService.mk5min JsVal) 0 5 "k").2
    (CacheService.mk5min JsVal) rfl

/-!
## Stats aggregation (`fetchUserAnimeStats`, lines 93-126)

Scores come from the upstream JSON as `entry.media.averageScore`; a JS
property read can yield a number, `null`, or `undefined` (property
absent), and the source's filter `score !== null` keeps `undefined`.
JS `+` turns `number + undefined` into `NaN` and `number + null` into the
number, which `jsAdd` reproduces.
-/

/-- A JS value in the `averageScore` position: a number, `null`, or
`undefined` (the property is missing). -/
inductive JsScore where
  | num (n : ℤ)
  | nullScore
  | undef
deriving DecidableEq, Repr

/-- The `media` object of a list entry (`media: { averageScore }`). -/
structure MediaObj where
  averageScore : JsScore
deriving DecidableEq, Repr

/-- A list entry; the aggregation reads only `entry.media.averageScore`. -/
structure EntryObj where
  media : MediaObj
deriving DecidableEq, Repr

/-- A named list of the `MediaListCollection.lists` response: `entries`
is optional because the source guards it with `?.entries || []`. -/
structure NamedList where
  name : String
  entries : Option (List EntryObj)
deriving DecidableEq, Repr

/-- Running value of `validScores.reduce((a, b) => a + b, 0)` under JS
addition: either a number or `NaN`. -/
inductive JsSum where
  | nan
  | val (n : ℤ)
deriving DecidableEq, Repr

/-- One step of JS `+` on the accumulator: `x + undefined = NaN`,
`x + null = x`, `NaN` absorbs.  Integer additions are modelled exactly:
JS doubles add integers exactly while every partial sum stays below
2^53, which covers the upstream's 0-100 score range. -/
def jsAdd : JsSum → JsScore → JsSum
  | .nan, _ => .nan
  | .val a, .num n => .val (a + n)
  | .val a, .nullScore => .val a
  | .val _, .undef => .nan

/-- The value the source leaves in `stats.averageScore`: the initial
number `0` (never overwritten when no valid score exists), the string
`"NaN"` from `NaN.toFixed(2)`, or the string `(sum/count).toFixed(2)`.
The last is kept symbolic as the exact pair `(sum, count)` that
determines it, because its final digit follows IEEE-754 double rounding
of the quotient: at a mean such as `3207/40 = 80.175` the double is
below the exact value and the source renders `"80.17"`, while exact
half-up rounding would give `80.18`.  The model therefore commits to
the rendered digits nowhere, only to the exact data they are computed
from (e.g. `fixedOf 240 3` is the rendering of `80`, `"80.00"`). -/
inductive AverageScore where
  | numZero
  | nanStr
  | fixedOf (sum : ℤ) (count : ℕ)
deriving DecidableEq, Repr

/-- `(sum / n).toFixed(2)` of the source, on the model of JS numbers:
`NaN` stringifies to `"NaN"`, a number to the symbolic rendering of
its quotient. -/
def toFixed2 : JsSum → ℕ → AverageScore
  | .nan, _ => .nanStr
  | .val s, n => .fixedOf s n

/-- The `stats` record built by `fetchUserAnimeStats`. -/
structure AnimeStats where
  totalAnime : ℕ
  completedAnime : ℕ
  watchingAnime : ℕ
  pausedAnime : ℕ
  droppedAnime : ℕ
  planningAnime : ℕ
  averageScore : AverageScore
deriving DecidableEq, Repr

/-- `lists.find(list => list.name === name)?.entries || []`. -/
def statusEntries (lists : List NamedList) (name : String) : List EntryObj :=
  ((lists.find? (fun l => l.name == name)).bind (fun l => l.entries)).getD []

/-- `Object.values(statusCategories).flat()`: all entries of the five
categories, in insertion order. -/
def allEntriesOf (lists : List NamedList) : List EntryObj :=
  statusEntries lists "Completed" ++ statusEntries lists "Watching" ++
    statusEntries lists "Paused" ++ statusEntries lists "Dropped" ++
    statusEntries lists "Planning"

/-- `allEntries.map(entry => entry.media.averageScore).filter(score => score !== null)` —
note that `undefined` passes this strict-inequality filter. -/
def validScoresOf (lists : List NamedList) : List JsScore :=
  ((allEntriesOf lists).map (fun e => e.media.averageScore)).filter
    (fun s => s != JsScore.nullScore)

/-- The aggregation block of `fetchUserAnimeStats` (lines 93-126) as a
pure function of the `lists` array. -/
def aggregateStats (lists : List NamedList) : AnimeStats :=
  let vs := validScoresOf lists
  { totalAnime := (allEntriesOf lists).length
    completedAnime := (statusEntries lists "Completed").length
    watchingAnime := (statusEntries lists "Watching").length
    pausedAnime := (statusEntries lists "Paused").length
    droppedAnime := (statusEntries lists "Dropped").length
    planningAnime := (statusEntries lists "Planning").length
    averageScore :=
      if vs.length > 0 then toFixed2 (vs.foldl jsAdd (JsSum.val 0)) vs.length
      else AverageScore.numZero }

/-- Whether `createAnimeStatsEmbed` shows the computed average or falls
back to `'N/A'`: it renders `stats.averageScore || 'N/A'`, and the only
falsy value the pipeline can leave there is the initial number `0`. -/
def averageDisplayed : AverageScore → Bool
  | .numZero => false
  | _ => true

/-- Numeric value of a score (only meaningful on `num`). -/
def scoreInt : JsScore → ℤ
  | .num n => n
  | _ => 0

theorem foldl_jsAdd_eq_sum (vs : List JsScore) (a : ℤ)
    (h : ∀ s ∈ vs, s ≠ JsScore.undef) :
    vs.foldl jsAdd (JsSum.val a) = JsSum.val (a + (vs.map scoreInt).sum) := by
  induction vs generalizing a with
  | nil => simp
  | cons x tl ih =>
    have htl : ∀ s ∈ tl, s ≠ JsScore.undef := fun s hs => h s (List.mem_cons_of_mem _ hs)
    cases x with
    | num n =>
        simp only [List.foldl_cons, jsAdd, ih (a + n) htl, List.map_cons, List.sum_cons,
          scoreInt]
        ring_nf
    | nullScore =>
        simp only [List.foldl_cons, jsAdd, ih a htl, List.map_cons, List.sum_cons, scoreInt]
        ring_nf
    | undef => exact absurd rfl (h _ (List.mem_cons_self _ _))

/-- C3 (claim as stated) fails on a missing score: the filter
`score !== null` keeps `undefined`, so a `Completed` list with entries
scored `[80, undefined]` yields `averageScore = "NaN"`, not the
rendering `"80.00"` of the mean `80/1` of the valid scores. -/
theorem average_missing_score_counterexample :
    (aggregateStats
        [⟨"Completed", some [⟨⟨JsScore.num 80⟩⟩, ⟨⟨JsScore.undef⟩⟩]⟩]).averageScore =
      AverageScore.nanStr ∧
    AverageScore.nanStr ≠ AverageScore.fixedOf 80 1 := by
  constructor
  · decide
  · decide

/-- C3 (amended): the aggregator discards only `null` scores.  Provided
no entry score is missing (`undefined`), when at least one valid score
remains the average is `(sum/count).toFixed(2)` for exactly the integer
sum and the count of the valid scores — the arithmetic mean of the
valid scores rendered to two decimals by the double pipeline; with no
valid score the field keeps the numeric `0`, which the embed renders as
the unavailable marker `'N/A'`. -/
theorem average_of_valid_scores (lists : List NamedList)
    (h : ∀ s ∈ validScoresOf lists, s ≠ JsScore.undef) :
    (validScoresOf lists ≠ [] →
      (aggregateStats lists).averageScore =
        AverageScore.fixedOf (((validScoresOf lists).map scoreInt).sum)
          ((validScoresOf lists).length)) ∧
    (validScoresOf lists = [] →
      (aggregateStats lists).averageScore = AverageScore.numZero ∧
      averageDisplayed (aggregateStats lists).averageScore = false) := by
  constructor
  · intro hne
    have hlen : 0 < (validScoresOf lists).length := List.length_pos.mpr hne
    simp only [aggregateStats, gt_iff_lt, hlen, if_true, foldl_jsAdd_eq_sum _ 0 h,
      toFixed2, zero_add]
  · intro he
    have h1 : (aggregateStats lists).averageScore = AverageScore.numZero := by
      simp [aggregateStats, he]
    exact ⟨h1, by rw [h1]; rfl⟩

/-- Witness for `average_of_valid_scores`: scores `[80, 90, null, 70]`
average to the rendering of `240/3` — an exact integer mean, `240 = 3 * 80`,
so the rendered string is `"80.00"` — and the all-null collection
reports the unavailable marker. -/
theorem average_of_valid_scores_witness :
    (aggregateStats
        [⟨"Completed", some [⟨⟨JsScore.num 80⟩⟩, ⟨⟨JsScore.num 90⟩⟩]⟩,
         ⟨"Watching", some [⟨⟨JsScore.nullScore⟩⟩, ⟨⟨JsScore.num 70⟩⟩]⟩]).averageScore =
      AverageScore.fixedOf 240 3 ∧
    (240 : ℤ) = 3 * 80 ∧
    (aggregateStats [⟨"Completed", some [⟨⟨JsScore.nullScore⟩⟩]⟩]).averageScore =
      AverageScore.numZero := by
  refine ⟨?_, by decide, ?_⟩
  · have := (average_of_valid_scores
      [⟨"Completed", some [⟨⟨JsScore.num 80⟩⟩, ⟨⟨JsScore.num 90⟩⟩]⟩,
       ⟨"Watching", some [⟨⟨JsScore.nullScore⟩⟩, ⟨⟨JsScore.num 70⟩⟩]⟩]
      (by decide)).1 (by decide)
    rw [this]
    decide
  · exact ((average_of_valid_scores [⟨"Completed", some [⟨⟨JsScore.nullScore⟩⟩]⟩]
      (by decide)).2 (by decide)).1

/-- C4: `totalAnime` is the length of the concatenation of the five
status categories, hence equals the sum of the five per-status counts,
for every input collection. -/
theorem totalAnime_eq_sum_of_counts (lists : List NamedList) :
    (aggregateStats lists).totalAnime =
      (aggregateStats lists).completedAnime + (aggregateStats lists).watchingAnime +
        (aggregateStats lists).pausedAnime + (aggregateStats lists).droppedAnime +
        (aggregateStats lists).planningAnime := by
  simp [aggregateStats, allEntriesOf, List.length_append]
  omega

/-- C5: aggregation is total and defensive — a status name absent from
the response contributes a zero count (the `?.entries || []` default),
and the empty collection yields all-zero counts with the average left at
the falsy `0` that renders as unavailable. -/
theorem aggregation_defensive_defaults (lists : List NamedList) :
    ((lists.find? (fun l => l.name == "Completed")) = none →
      (aggregateStats lists).completedAnime = 0) ∧
    ((lists.find? (fun l => l.name == "Watching")) = none →
      (aggregateStats lists).watchingAnime = 0) ∧
    ((lists.find? (fun l => l.name == "Paused")) = none →
      (aggregateStats lists).pausedAnime = 0) ∧
    ((lists.find? (fun l => l.name == "Dropped")) = none →
      (aggregateStats lists).droppedAnime = 0) ∧
    ((lists.find? (fun l => l.name == "Planning")) = none →
      (aggregateStats lists).planningAnime = 0) ∧
    aggregateStats [] =
      { totalAnime := 0, completedAnime := 0, watchingAnime := 0, pausedAnime := 0,
        droppedAnime := 0, planningAnime := 0, averageScore := AverageScore.numZero } := by
  refine ⟨?_, ?_, ?_, ?_, ?_, by decide⟩ <;>
    · intro h
      simp [aggregateStats, statusEntries, h]

/-- Witness for `aggregation_defensive_defaults`: a collection holding
only a `Completed` list has zero counts for the other four statuses. -/
theorem aggregation_defensive_defaults_witness :
    (aggregateStats [⟨"Completed", some [⟨⟨JsScore.num 85⟩⟩]⟩]).watchingAnime = 0 ∧
    (aggregateStats [⟨"Completed", some [⟨⟨JsScore.num 85⟩⟩]⟩]).pausedAnime = 0 ∧
    (aggregateStats [⟨"Completed", some [⟨⟨JsScore.num 85⟩⟩]⟩]).droppedAnime = 0 ∧
    (aggregateStats [⟨"Completed", some [⟨⟨JsScore.num 85⟩⟩]⟩]).planningAnime = 0 := by
  refine ⟨?_, ?_, ?_, ?_⟩
  · exact (aggregation_defensive_defaults
      [⟨"Completed", some [⟨⟨JsScore.num 85⟩⟩]⟩]).2.1 (by decide)
  · exact (aggregation_defensive_defaults
      [⟨"Completed", some [⟨⟨JsScore.num 85⟩⟩]⟩]).2.2.1 (by decide)
  · exact (aggregation_defensive_defaults
      [⟨"Completed", some [⟨⟨JsScore.num 85⟩⟩]⟩]).2.2.2.1 (by decide)
  · exact (aggregation_defensive_defaults
      [⟨"Completed", some [⟨⟨JsScore.num 85⟩⟩]⟩]).2.2.2.2.1 (by decide)

/-!
## `fetchUserAnimeStats` (lines 47-140)

The upstream response is either a transport failure (axios throws) or a
JSON body with a nullable `User` and a nullable `MediaListCollection`.
When `MediaListCollection` (or its `lists` field) is null the source's
unguarded `response.data.data.MediaListCollection.lists` access throws a
`TypeError`, modelled as `malformedResponse`.  The cache-hit test
`if (cachedStats)` is truthiness on a stats object, which is always
truthy, so it is a plain `isSome` test here.
-/

/-- Outcome of the `axios.post` for the stats query. -/
inductive StatsResponse where
  | transportError
  | ok (userFound : Bool) (lists : Option (List NamedList))
deriving DecidableEq

/-- The error classes `fetchUserAnimeStats` can rethrow. -/
inductive FetchError where
  | userNotFound
  | malformedResponse
  | transport
deriving DecidableEq, Repr

/-- `fetchUserAnimeStats(username)`: returns the thrown error or the
stats, the cache after the call, and whether the upstream API was
invoked. -/
def fetchUserAnimeStats (c : CacheService AnimeStats) (now : ℤ) (username : String)
    (resp : StatsResponse) :
    Except FetchError AnimeStats × CacheService AnimeStats × Bool :=
  let key := "stats_" ++ username
  let g := c.get now key
  match g.1 with
  | some cachedStats => (.ok cachedStats, g.2, false)
  | none =>
      match resp with
      | .transportError => (.error .transport, g.2, true)
      | .ok userFound lists? =>
          if userFound then
            match lists? with
            | none => (.error .malformedResponse, g.2, true)
            | some lists =>
                let s := g.2.set now key (aggregateStats lists)
                (.ok s.1, s.2, true)
          else (.error .userNotFound, g.2, true)

theorem CacheService.ttl_get (c : CacheService α) (now : ℤ) (k : String) :
    ((c.get now k).2).ttl = c.ttl := by
  unfold CacheService.get
  rcases hmem : c.cache k with _ | e
  · rfl
  · by_cases hexp : now - e.timestamp > c.ttl
    · simp [hexp]
    · simp [hexp]

theorem fetchUserAnimeStats_hit (c : CacheService AnimeStats) (now : ℤ)
    (username : String) (resp : StatsResponse) (s : AnimeStats)
    (hs : (c.get now ("stats_" ++ username)).1 = some s) :
    fetchUserAnimeStats c now username resp = (.ok s, c, false) := by
  have hc : (c.get now ("stats_" ++ username)).2 = c := by
    unfold CacheService.get at hs ⊢
    rcases hmem : c.cache ("stats_" ++ username) with _ | e
    · simp [hmem] at hs
    · simp only [hmem] at hs ⊢
      by_cases hexp : now - e.timestamp > c.ttl
      · simp [hexp] at hs
      · simp [hexp]
  unfold fetchUserAnimeStats
  simp only [hs, hc]

theorem fetchUserAnimeStats_miss_success (c : CacheService AnimeStats) (now : ℤ)
    (username : String) (lists : List NamedList)
    (hg : (c.get now ("stats_" ++ username)).1 = none) :
    fetchUserAnimeStats c now username (.ok true (some lists)) =
      (.ok (aggregateStats lists),
       ((c.get now ("stats_" ++ username)).2.set now ("stats_" ++ username)
         (aggregateStats lists)).2, true) := by
  unfold fetchUserAnimeStats
  simp [hg, CacheService.set]

/-- C6: a stats fetch whose cache key holds an unexpired entry returns
the cached value with no upstream call and no cache mutation; and after
a successful fetch that did call upstream (a miss), any second call
within the TTL window returns the identical stats object with no second
upstream request. -/
theorem stats_cache_hit_no_upstream (c : CacheService AnimeStats) (now : ℤ)
    (username : String) (resp : StatsResponse) :
    (∀ s, (c.get now ("stats_" ++ username)).1 = some s →
      fetchUserAnimeStats c now username resp = (.ok s, c, false)) ∧
    (∀ s, (fetchUserAnimeStats c now username resp).1 = .ok s →
      (fetchUserAnimeStats c now username resp).2.2 = true →
      ∀ (d : ℤ) (resp' : StatsResponse), d ≤ c.ttl →
        fetchUserAnimeStats ((fetchUserAnimeStats c now username resp).2.1)
            (now + d) username resp' =
          (.ok s, (fetchUserAnimeStats c now username resp).2.1, false)) := by
  constructor
  · intro s hs
    exact fetchUserAnimeStats_hit c now username resp s hs
  · intro s hok hapi d resp' hd
    rcases hg : (c.get now ("stats_" ++ username)).1 with _ | cached
    · rcases resp with _ | ⟨userFound, lists?⟩
      · unfold fetchUserAnimeStats at hok
        simp [hg] at hok
      · rcases userFound with _ | _
        · unfold fetchUserAnimeStats at hok
          simp [hg] at hok
        · rcases lists? with _ | lists
          · unfold fetchUserAnimeStats at hok
            simp [hg] at hok
          · have hm := fetchUserAnimeStats_miss_success c now username lists hg
            rw [hm] at hok ⊢
            have hs : aggregateStats lists = s := by simpa using hok
            subst hs
            have httl : ((c.get now ("stats_" ++ username)).2).ttl = c.ttl :=
              CacheService.ttl_get c now _
            have hfresh :
                (((c.get now ("stats_" ++ username)).2.set now ("stats_" ++ username)
                    (aggregateStats lists)).2.get (now + d) ("stats_" ++ username)).1 =
                  some (aggregateStats lists) := by
              rw [CacheService.get_set_fresh ((c.get now ("stats_" ++ username)).2) now
                (now + d) ("stats_" ++ username) (aggregateStats lists)
                (by rw [httl]; omega)]
            exact fetchUserAnimeStats_hit _ (now + d) username resp' _ hfresh
    · rw [fetchUserAnimeStats_hit c now username resp cached hg] at hapi
      simp at hapi

/-- Witness for `stats_cache_hit_no_upstream`: a concrete hit skips the
API, and a concrete miss-then-recall 10 ms later returns the cached
object without a second request. -/
theorem stats_cache_hit_no_upstream_witness :
    (fetchUserAnimeStats
        (((CacheService.mk5min AnimeStats).set 0 ("stats_" ++ "alice")
          (aggregateStats [])).2) 5 "alice" .transportError =
      (.ok (aggregateStats []), ((CacheService.mk5min AnimeStats).set 0 ("stats_" ++ "alice")
          (aggregateStats [])).2, false)) ∧
    (fetchUserAnimeStats
        ((fetchUserAnimeStats (CacheService.mk5min AnimeStats) 0 "alice"
            (.ok true (some []))).2.1) 10 "alice" .transportError =
      (.ok (aggregateStats []),
        (fetchUserAnimeStats (CacheService.mk5min AnimeStats) 0 "alice"
            (.ok true (some []))).2.1, false)) := by
  constructor
  · exact (stats_cache_hit_no_upstream _ 5 "alice" .transportError).1
      (aggregateStats []) (by rfl)
  · exact (stats_cache_hit_no_upstream (CacheService.mk5min AnimeStats) 0 "alice"
      (.ok true (some []))).2 (aggregateStats []) rfl rfl 10 .transportError (by decide)

/-- C9: when `fetchUserAnimeStats` terminates with an error, nothing is
written to the cache: the entry under every key is either untouched or
lazily deleted because it had already expired, and every read at or
after the current time observes exactly what it would have observed on
the original cache. -/
theorem stats_fetch_error_no_cache_write (c : CacheService AnimeStats) (now : ℤ)
    (username : String) (resp : StatsResponse) (e : FetchError)
    (herr : (fetchUserAnimeStats c now username resp).1 = .error e) :
    (∀ k, ((fetchUserAnimeStats c now username resp).2.1).cache k = c.cache k ∨
      ((fetchUserAnimeStats c now username resp).2.1).cache k = none) ∧
    ((fetchUserAnimeStats c now username resp).2.1).ttl = c.ttl ∧
    (∀ (t : ℤ) (k : String), now ≤ t →
      ((fetchUserAnimeStats c now username resp).2.1).peek t k = c.peek t k) := by
  have hcases : (fetchUserAnimeStats c now username resp).2.1 =
      (c.get now ("stats_" ++ username)).2 := by
    rcases hg : (c.get now ("stats_" ++ username)).1 with _ | cached
    · rcases resp with _ | ⟨userFound, lists?⟩
      · unfold fetchUserAnimeStats
        simp [hg]
      · rcases userFound with _ | _
        · unfold fetchUserAnimeStats
          simp [hg]
        · rcases lists? with _ | lists
          · unfold fetchUserAnimeStats
            simp [hg]
          · exfalso
            rw [fetchUserAnimeStats_miss_success c now username lists hg] at herr
            simp at herr
    · exfalso
      rw [fetchUserAnimeStats_hit c now username resp cached hg] at herr
      simp at herr
  rw [hcases]
  rcases hmem : c.cache ("stats_" ++ username) with _ | entry
  · have hgc : (c.get now ("stats_" ++ username)).2 = c := by
      unfold CacheService.get
      rw [hmem]
    rw [hgc]
    exact ⟨fun k => Or.inl rfl, rfl, fun t k _ => rfl⟩
  · by_cases hexp : now - entry.timestamp > c.ttl
    · have hgc : (c.get now ("stats_" ++ username)).2 =
          { c with cache := fun k => if k = "stats_" ++ username then none
                                     else c.cache k } := by
        unfold CacheService.get
        rw [hmem]
        simp [hexp]
      rw [hgc]
      refine ⟨?_, rfl, ?_⟩
      · intro k
        by_cases hk : k = "stats_" ++ username
        · right; simp [hk]
        · left; simp [hk]
      · intro t k ht
        by_cases hk : k = "stats_" ++ username
        · subst hk
          have hexp' : t - entry.timestamp > c.ttl := by omega
          simp [CacheService.peek, hmem, hexp']
        · simp [CacheService.peek, hk]
    · have hgc : (c.get now ("stats_" ++ username)).2 = c := by
        unfold CacheService.get
        rw [hmem]
        simp [hexp]
      rw [hgc]
      exact ⟨fun k => Or.inl rfl, rfl, fun t k _ => rfl⟩

/-- Witness for `stats_fetch_error_no_cache_write`: a user-not-found
response against the empty cache leaves the cache observationally
unchanged. -/
theorem stats_fetch_error_no_cache_write_witness :
    ((fetchUserAnimeStats (CacheService.mk5min AnimeStats) 0 "bob"
        (.ok false none)).2.1).cache "stats_bob" = none ∧
    ((fetchUserAnimeStats (CacheService.mk5min AnimeStats) 0 "bob"
        (.ok false none)).2.1).peek 0 "stats_bob" =
      (CacheService.mk5min AnimeStats).peek 0 "stats_bob" := by
  have h := stats_fetch_error_no_cache_write (CacheService.mk5min AnimeStats) 0 "bob"
    (.ok false none) .userNotFound rfl
  refine ⟨?_, h.2.2 0 "stats_bob" (by decide)⟩
  rcases h.1 "stats_bob" with h1 | h1
  · rw [h1]; rfl
  · exact h1

/-!
## `fetchAnimeCoverById` (`AnimeCoverService`, lines 280-319 of the
concatenated module sources)

The lookup maps the optional-chained field
`response.data?.data?.Media?.coverImage?.extraLarge || null` to the
result; a transport failure is logged and rethrown.  `x || null` turns
the empty string into `null` as well, which the `h : u ≠ ""` hypothesis
below acknowledges.
-/

/-- Outcome of the `axios.post` for the cover query: a transport failure
or a body whose optional chain resolves to `extraLarge` (or to nothing
at any step). -/
inductive CoverResponse where
  | transportError
  | ok (extraLarge : Option String)
deriving DecidableEq

/-- The rethrown transport/API failure. -/
inductive UpstreamError where
  | transport
deriving DecidableEq, Repr

/-- `fetchAnimeCoverById`: the image URL if resolved, `none` if the
entity (or its cover) is absent, an exception on transport failure. -/
def fetchAnimeCoverById (resp : CoverResponse) : Except UpstreamError (Option String) :=
  match resp with
  | .transportError => .error .transport
  | .ok extraLarge =>
      .ok (match extraLarge with
        | some u => if u = "" then none else some u
        | none => none)

/-- C7: the cover lookup returns the URL when the API resolves a
matching entity (with a non-empty URL, since `|| null` collapses the
empty string), returns absent when not found, and raises the transport
error rather than returning absent on a transport failure. -/
theorem cover_lookup_classification (u : String) (h : u ≠ "") :
    fetchAnimeCoverById (.ok (some u)) = .ok (some u) ∧
    fetchAnimeCoverById (.ok none) = .ok none ∧
    fetchAnimeCoverById .transportError = .error .transport := by
  refine ⟨?_, rfl, rfl⟩
  simp [fetchAnimeCoverById, h]

/-- Witness for `cover_lookup_classification` at a concrete URL. -/
theorem cover_lookup_classification_witness :
    fetchAnimeCoverById (.ok (some "https://example.invalid/cover.png")) =
      .ok (some "https://example.invalid/cover.png") ∧
    fetchAnimeCoverById (.ok none) = .ok none ∧
    fetchAnimeCoverById .transportError = .error .transport :=
  cover_lookup_classification "https://example.invalid/cover.png" (by decide)

/-!
## Command orchestrators (`handleAnimeStatsCommand`,
`handleAnimeCoverCommand`)

Each handler is modelled as a function from an environment — the command
options, the upstream outcome, and the success/failure of each host
(`discord.js`) call — to the trace of host calls it performs.  A
`deferReply`/`editReply`/`reply` call that fails throws in JS; the trace
records the call with its success flag and the control flow follows the
`try`/`catch` structure of the source.  `deferReply` sets the
`deferred` flag only when it succeeds, and `reply`'s trace entry records
the value of `interaction.deferred` at the moment of the call.
-/

/-- The ECMAScript `StrWhiteSpaceChar` set that `parseInt` skips at the
start of its input: WhiteSpace (TAB, VT, FF, SP, NBSP, ZWNBSP and the
Unicode `Zs` category) and LineTerminator (LF, CR, LS, PS). -/
def isJsStrWhiteSpace (c : Char) : Bool :=
  (c.toNat == 0x9) || (c.toNat == 0xB) || (c.toNat == 0xC) || (c.toNat == 0x20) ||
    (c.toNat == 0xA0) || (c.toNat == 0xFEFF) || (c.toNat == 0xA) || (c.toNat == 0xD) ||
    (c.toNat == 0x2028) || (c.toNat == 0x2029) || (c.toNat == 0x1680) ||
    (decide (0x2000 ≤ c.toNat) && decide (c.toNat ≤ 0x200A)) ||
    (c.toNat == 0x202F) || (c.toNat == 0x205F) || (c.toNat == 0x3000)

/-- Value of a hexadecimal digit (`0-9`, `a-f`, `A-F`), else `none`. -/
def hexDigitVal (c : Char) : Option ℕ :=
  if c.isDigit then some (c.toNat - 48)
  else if decide ('a' ≤ c) && decide (c ≤ 'f') then some (c.toNat - 87)
  else if decide ('A' ≤ c) && decide (c ≤ 'F') then some (c.toNat - 55)
  else none

/-- Longest prefix of decimal digits as a number; `none` when empty
(`parseInt`'s `NaN`). -/
def leadingNat (cs : List Char) : Option ℕ :=
  let ds := cs.takeWhile Char.isDigit
  if ds.isEmpty then none
  else some (ds.foldl (fun acc c => acc * 10 + (c.toNat - 48)) 0)

/-- Longest prefix of hexadecimal digits as a number; `none` when empty
(so `parseInt("0x")` is `NaN`). -/
def leadingHexNat (cs : List Char) : Option ℕ :=
  let ds := cs.takeWhile (fun c => (hexDigitVal c).isSome)
  if ds.isEmpty then none
  else some (ds.foldl (fun acc c => acc * 16 + (hexDigitVal c).getD 0) 0)

/-- `parseInt`'s unsigned part with the automatic radix: a `0x`/`0X`
prefix switches to hexadecimal digits, anything else is decimal. -/
def parseIntUnsigned : List Char → Option ℕ
  | '0' :: 'x' :: rest => leadingHexNat rest
  | '0' :: 'X' :: rest => leadingHexNat rest
  | cs => leadingNat cs

/-- `parseInt(s)` with no radix argument, as the source calls it: skip
leading `StrWhiteSpace`, an optional sign, then the auto-radix digit
prefix; `none` is `NaN`. -/
def parseIntJs (s : String) : Option ℤ :=
  match s.data.dropWhile isJsStrWhiteSpace with
  | '-' :: rest => (parseIntUnsigned rest).map (fun n => -(n : ℤ))
  | '+' :: rest => (parseIntUnsigned rest).map (fun n => (n : ℤ))
  | cs => (parseIntUnsigned cs).map (fun n => (n : ℤ))

/-- The distinct reply payloads the two handlers can send. -/
inductive Payload where
  | validationMsg
  | successEmbed
  | fetchErrorMsg
  | statsUnexpectedMsg
  | coverValidationMsg
  | noCoverMsg
  | coverEmbed
  | coverErrorMsg
deriving DecidableEq, Repr

/-- One host-interface call in a handler's trace. -/
inductive HostCall where
  | deferCall (ok : Bool)
  | editCall (p : Payload) (ok : Bool)
  | replyCall (p : Payload) (deferredAt : Bool) (ok : Bool)
  | statsApiCall
  | coverApiCall (animeId : ℤ)
deriving DecidableEq, Repr

/-- The shared last-resort `catch (globalError)` block: `reply` if
neither replied nor deferred, `editReply` if deferred, otherwise
nothing; a failure of this final call is only logged. -/
def finalCatch (p : Payload) (replyOk : Bool) (editOk : ℕ → Bool)
    (deferred replied : Bool) (idx : ℕ) : List HostCall :=
  if !replied && !deferred then [HostCall.replyCall p deferred replyOk]
  else if deferred then [HostCall.editCall p (editOk idx)]
  else []

/-- Environment of one `handleAnimeStatsCommand` invocation:
the `username` option (`none` is JS `null`), whether
`fetchUserAnimeStats` throws, and the outcome of each host call
(`editOk` is indexed by the number of `editReply` calls already made). -/
structure StatsEnv where
  username : Option String
  fetchErr : Bool
  deferOk : Bool
  replyOk : Bool
  editOk : ℕ → Bool

/-- `handleAnimeStatsCommand(interaction)` as a trace of host calls.
The check `if (!username)` is JS falsiness: `null` or the empty
string. -/
def handleAnimeStatsCommand (env : StatsEnv) : List HostCall :=
  if env.deferOk then
    HostCall.deferCall true ::
      match env.username with
      | none =>
          HostCall.editCall .validationMsg (env.editOk 0) ::
            (if env.editOk 0 then []
             else finalCatch .statsUnexpectedMsg env.replyOk env.editOk true false 1)
      | some u =>
          if u = "" then
            HostCall.editCall .validationMsg (env.editOk 0) ::
              (if env.editOk 0 then []
               else finalCatch .statsUnexpectedMsg env.replyOk env.editOk true false 1)
          else
            HostCall.statsApiCall ::
              (if env.fetchErr then
                HostCall.editCall .fetchErrorMsg (env.editOk 0) ::
                  (if env.editOk 0 then []
                   else finalCatch .statsUnexpectedMsg env.replyOk env.editOk true false 1)
              else
                HostCall.editCall .successEmbed (env.editOk 0) ::
                  (if env.editOk 0 then []
                   else
                     HostCall.editCall .fetchErrorMsg (env.editOk 1) ::
                       (if env.editOk 1 then []
                        else finalCatch .statsUnexpectedMsg env.replyOk env.editOk
                          true false 2)))
  else
    HostCall.deferCall false ::
      finalCatch .statsUnexpectedMsg env.replyOk env.editOk false false 0

/-- Environment of one `handleAnimeCoverCommand` invocation. -/
structure CoverEnv where
  animeIdStr : Option String
  coverResp : CoverResponse
  deferOk : Bool
  replyOk : Bool
  editOk : ℕ → Bool

/-- `handleAnimeCoverCommand(interaction)` as a trace of host calls.
The validation is `!animeIdStr || isNaN(parseInt(animeIdStr))`; on an
upstream throw there is no stage-local catch, so control falls to the
final catch with `deferred` true. -/
def handleAnimeCoverCommand (env : CoverEnv) : List HostCall :=
  if env.deferOk then
    HostCall.deferCall true ::
      match env.animeIdStr with
      | none =>
          HostCall.editCall .coverValidationMsg (env.editOk 0) ::
            (if env.editOk 0 then []
             else finalCatch .coverErrorMsg env.replyOk env.editOk true false 1)
      | some s =>
          if s = "" then
            HostCall.editCall .coverValidationMsg (env.editOk 0) ::
              (if env.editOk 0 then []
               else finalCatch .coverErrorMsg env.replyOk env.editOk true false 1)
          else
            match parseIntJs s with
            | none =>
                HostCall.editCall .coverValidationMsg (env.editOk 0) ::
                  (if env.editOk 0 then []
                   else finalCatch .coverErrorMsg env.replyOk env.editOk true false 1)
            | some n =>
                HostCall.coverApiCall n ::
                  match fetchAnimeCoverById env.coverResp with
                  | .error _ =>
                      finalCatch .coverErrorMsg env.replyOk env.editOk true false 0
                  | .ok none =>
                      HostCall.editCall .noCoverMsg (env.editOk 0) ::
                        (if env.editOk 0 then []
                         else finalCatch .coverErrorMsg env.replyOk env.editOk true false 1)
                  | .ok (some _) =>
                      HostCall.editCall .coverEmbed (env.editOk 0) ::
                        (if env.editOk 0 then []
                         else finalCatch .coverErrorMsg env.replyOk env.editOk true false 1)
  else
    HostCall.deferCall false ::
      finalCatch .coverErrorMsg env.replyOk env.editOk false false 0

/-- Is this trace entry a `deferReply` call? -/
def HostCall.isDeferCall : HostCall → Bool
  | .deferCall _ => true
  | _ => false

/-- Is this trace entry a user-visible reply — a `reply`/`editReply`
call that succeeded? -/
def HostCall.isVisibleReply : HostCall → Bool
  | .editCall _ ok => ok
  | .replyCall _ _ ok => ok
  | _ => false

/-- Is this a `reply()` call made while `deferred` was already true? -/
def HostCall.isReplyWhileDeferred : HostCall → Bool
  | .replyCall _ deferredAt _ => deferredAt
  | _ => false

/-- Does this payload report a failure (as opposed to a validation
message or a success embed)? -/
def Payload.isErrorPayload : Payload → Bool
  | .fetchErrorMsg => true
  | .statsUnexpectedMsg => true
  | .coverErrorMsg => true
  | _ => false

/-- Is this an `editReply` call carrying an error payload? -/
def HostCall.isErrorEditCall : HostCall → Bool
  | .editCall p _ => p.isErrorPayload
  | _ => false

/-- Is this an `editReply` call carrying a validation message? -/
def HostCall.isValidationEditCall : HostCall → Bool
  | .editCall .validationMsg _ => true
  | .editCall .coverValidationMsg _ => true
  | _ => false

/-- The anime ids for which the upstream cover lookup was invoked. -/
def coverIdsCalled (tr : List HostCall) : List ℤ :=
  tr.filterMap (fun a =>
    match a with
    | .coverApiCall n => some n
    | _ => none)

theorem stats_trace_core (env : StatsEnv) :
    (handleAnimeStatsCommand env).countP HostCall.isDeferCall ≤ 1 ∧
    (handleAnimeStatsCommand env).countP HostCall.isReplyWhileDeferred = 0 ∧
    (handleAnimeStatsCommand env).countP HostCall.isVisibleReply ≤ 1 := by
  obtain ⟨u, f, d, r, eo⟩ := env
  rcases u with _ | u
  · rcases d <;> rcases r <;> rcases f <;>
      rcases h0 : eo 0 <;> rcases h1 : eo 1 <;> rcases h2 : eo 2 <;>
      simp [handleAnimeStatsCommand, finalCatch, h0, h1, h2, List.countP_cons,
        HostCall.isDeferCall, HostCall.isReplyWhileDeferred, HostCall.isVisibleReply]
  · by_cases hu : u = "" <;>
      rcases d <;> rcases r <;> rcases f <;>
      rcases h0 : eo 0 <;> rcases h1 : eo 1 <;> rcases h2 : eo 2 <;>
      simp [handleAnimeStatsCommand, finalCatch, hu, h0, h1, h2, List.countP_cons,
        HostCall.isDeferCall, HostCall.isReplyWhileDeferred, HostCall.isVisibleReply]

theorem stats_trace_healthy (env : StatsEnv) (hr : env.replyOk = true)
    (hall : ∀ n, env.editOk n = true) :
    (handleAnimeStatsCommand env).countP HostCall.isVisibleReply = 1 := by
  obtain ⟨u, f, d, r, eo⟩ := env
  subst hr
  have h0 : eo 0 = true := hall 0
  have h1 : eo 1 = true := hall 1
  have h2 : eo 2 = true := hall 2
  rcases u with _ | u
  · rcases d <;> rcases f <;>
      simp [handleAnimeStatsCommand, finalCatch, h0, h1, h2, List.countP_cons,
        HostCall.isVisibleReply]
  · by_cases hu : u = "" <;> rcases d <;> rcases f <;>
      simp [handleAnimeStatsCommand, finalCatch, hu, h0, h1, h2, List.countP_cons,
        HostCall.isVisibleReply]

theorem stats_trace_upstream_failure (env : StatsEnv) (u : String)
    (hd : env.deferOk = true) (hs : env.username = some u) (hne : u ≠ "")
    (hf : env.fetchErr = true) (h0 : env.editOk 0 = true) :
    (handleAnimeStatsCommand env).countP HostCall.isErrorEditCall = 1 ∧
    (handleAnimeStatsCommand env).countP HostCall.isVisibleReply = 1 := by
  obtain ⟨uo, f, d, r, eo⟩ := env
  simp only at hd hs hf h0
  subst hd hs hf
  simp [handleAnimeStatsCommand, hne, h0, List.countP_cons,
    HostCall.isErrorEditCall, HostCall.isVisibleReply, Payload.isErrorPayload,
    HostCall.isDeferCall]

theorem cover_trace_core (env : CoverEnv) :
    (handleAnimeCoverCommand env).countP HostCall.isDeferCall ≤ 1 ∧
    (handleAnimeCoverCommand env).countP HostCall.isReplyWhileDeferred = 0 ∧
    (handleAnimeCoverCommand env).countP HostCall.isVisibleReply ≤ 1 := by
  obtain ⟨so, cr, d, r, eo⟩ := env
  rcases so with _ | s
  · rcases d <;> rcases r <;>
      rcases h0 : eo 0 <;> rcases h1 : eo 1 <;>
      simp [handleAnimeCoverCommand, finalCatch, h0, h1, List.countP_cons,
        HostCall.isDeferCall, HostCall.isReplyWhileDeferred, HostCall.isVisibleReply]
  · by_cases hs : s = ""
    · rcases d <;> rcases r <;>
        rcases h0 : eo 0 <;> rcases h1 : eo 1 <;>
        simp [handleAnimeCoverCommand, finalCatch, hs, h0, h1, List.countP_cons,
          HostCall.isDeferCall, HostCall.isReplyWhileDeferred, HostCall.isVisibleReply]
    · rcases hp : parseIntJs s with _ | n <;>
        rcases hfc : fetchAnimeCoverById cr with e | (_ | url) <;>
        rcases d <;> rcases r <;>
        rcases h0 : eo 0 <;> rcases h1 : eo 1 <;>
        simp [handleAnimeCoverCommand, finalCatch, hs, hp, hfc, h0, h1,
          List.countP_cons, HostCall.isDeferCall, HostCall.isReplyWhileDeferred,
          HostCall.isVisibleReply]

theorem cover_trace_healthy (env : CoverEnv) (hr : env.replyOk = true)
    (hall : ∀ n, env.editOk n = true) :
    (handleAnimeCoverCommand env).countP HostCall.isVisibleReply = 1 := by
  obtain ⟨so, cr, d, r, eo⟩ := env
  subst hr
  have h0 : eo 0 = true := hall 0
  have h1 : eo 1 = true := hall 1
  rcases so with _ | s
  · rcases d <;>
      simp [handleAnimeCoverCommand, finalCatch, h0, h1, List.countP_cons,
        HostCall.isVisibleReply]
  · by_cases hs : s = ""
    · rcases d <;>
        simp [handleAnimeCoverCommand, finalCatch, hs, h0, h1, List.countP_cons,
          HostCall.isVisibleReply]
    · rcases hp : parseIntJs s with _ | n <;>
        rcases hfc : fetchAnimeCoverById cr with e | (_ | url) <;>
        rcases d <;>
        simp [handleAnimeCoverCommand, finalCatch, hs, hp, hfc, h0, h1,
          List.countP_cons, HostCall.isVisibleReply]

theorem cover_trace_upstream_failure (env : CoverEnv) (s : String) (n : ℤ)
    (hd : env.deferOk = true) (hso : env.animeIdStr = some s)
    (hp : parseIntJs s = some n) (hcr : env.coverResp = .transportError)
    (h0 : env.editOk 0 = true) :
    (handleAnimeCoverCommand env).countP HostCall.isErrorEditCall = 1 ∧
    (handleAnimeCoverCommand env).countP HostCall.isVisibleReply = 1 := by
  obtain ⟨so, cr, d, r, eo⟩ := env
  simp only at hd hso hcr h0
  subst hd hso hcr
  have hse : s ≠ "" := by
    intro hcon
    rw [hcon] at hp
    have hnil : parseIntJs "" = none := rfl
    rw [hnil] at hp
    cases hp
  simp [handleAnimeCoverCommand, finalCatch, hse, hp, fetchAnimeCoverById, h0,
    List.countP_cons, HostCall.isErrorEditCall, HostCall.isVisibleReply,
    Payload.isErrorPayload, HostCall.isDeferCall]

/-- C1: for every environment — every command input, upstream outcome
and host-call outcome — each orchestrator defers at most once and never
calls `reply` while `deferred` is true; at most one user-visible reply
ever succeeds; when the host reply sink is healthy exactly one
user-visible reply is sent for every outcome (success, validation
failure, upstream failure, unexpected error); and on an upstream failure
after a successful deferral the handler performs exactly one `editReply`
carrying an error payload, which is the single visible reply. -/
theorem single_reply_invariant (es : StatsEnv) (ec : CoverEnv) :
    ((handleAnimeStatsCommand es).countP HostCall.isDeferCall ≤ 1 ∧
     (handleAnimeCoverCommand ec).countP HostCall.isDeferCall ≤ 1) ∧
    ((handleAnimeStatsCommand es).countP HostCall.isReplyWhileDeferred = 0 ∧
     (handleAnimeCoverCommand ec).countP HostCall.isReplyWhileDeferred = 0) ∧
    ((handleAnimeStatsCommand es).countP HostCall.isVisibleReply ≤ 1 ∧
     (handleAnimeCoverCommand ec).countP HostCall.isVisibleReply ≤ 1) ∧
    ((es.replyOk = true → (∀ n, es.editOk n = true) →
       (handleAnimeStatsCommand es).countP HostCall.isVisibleReply = 1) ∧
     (ec.replyOk = true → (∀ n, ec.editOk n = true) →
       (handleAnimeCoverCommand ec).countP HostCall.isVisibleReply = 1)) ∧
    ((∀ u, es.deferOk = true → es.username = some u → u ≠ "" →
       es.fetchErr = true → es.editOk 0 = true →
       (handleAnimeStatsCommand es).countP HostCall.isErrorEditCall = 1 ∧
       (handleAnimeStatsCommand es).countP HostCall.isVisibleReply = 1) ∧
     (∀ (s : String) (n : ℤ), ec.deferOk = true → ec.animeIdStr = some s →
       parseIntJs s = some n → ec.coverResp = .transportError →
       ec.editOk 0 = true →
       (handleAnimeCoverCommand ec).countP HostCall.isErrorEditCall = 1 ∧
       (handleAnimeCoverCommand ec).countP HostCall.isVisibleReply = 1)) := by
  refine ⟨⟨(stats_trace_core es).1, (cover_trace_core ec).1⟩,
    ⟨(stats_trace_core es).2.1, (cover_trace_core ec).2.1⟩,
    ⟨(stats_trace_core es).2.2, (cover_trace_core ec).2.2⟩,
    ⟨fun hr hall => stats_trace_healthy es hr hall,
     fun hr hall => cover_trace_healthy ec hr hall⟩,
    ⟨fun u hd hs hne hf h0 => stats_trace_upstream_failure es u hd hs hne hf h0,
     fun s n hd hso hp hcr h0 =>
       cover_trace_upstream_failure ec s n hd hso hp hcr h0⟩⟩

/-- Witness for `single_reply_invariant`: a healthy host with a failing
upstream for both handlers — exactly one visible reply, which is a
single error-payload `editReply`. -/
theorem single_reply_invariant_witness :
    (handleAnimeStatsCommand
        ⟨some "alice", true, true, true, fun _ => true⟩).countP
      HostCall.isVisibleReply = 1 ∧
    (handleAnimeStatsCommand
        ⟨some "alice", true, true, true, fun _ => true⟩).countP
      HostCall.isErrorEditCall = 1 ∧
    (handleAnimeCoverCommand
        ⟨some "21", .transportError, true, true, fun _ => true⟩).countP
      HostCall.isVisibleReply = 1 ∧
    (handleAnimeCoverCommand
        ⟨some "21", .transportError, true, true, fun _ => true⟩).countP
      HostCall.isErrorEditCall = 1 := by
  refine ⟨?_, ?_, ?_, ?_⟩
  · exact (single_reply_invariant ⟨some "alice", true, true, true, fun _ => true⟩
      ⟨some "21", .transportError, true, true, fun _ => true⟩).2.2.2.1.1
      rfl (fun n => rfl)
  · exact ((single_reply_invariant ⟨some "alice", true, true, true, fun _ => true⟩
      ⟨some "21", .transportError, true, true, fun _ => true⟩).2.2.2.2.1
      "alice" rfl rfl (by decide) rfl rfl).1
  · exact (single_reply_invariant ⟨some "alice", true, true, true, fun _ => true⟩
      ⟨some "21", .transportError, true, true, fun _ => true⟩).2.2.2.1.2
      rfl (fun n => rfl)
  · exact ((single_reply_invariant ⟨some "alice", true, true, true, fun _ => true⟩
      ⟨some "21", .transportError, true, true, fun _ => true⟩).2.2.2.2.2
      "21" 21 rfl rfl (by decide) rfl rfl).1

/-- C8 (claim as stated) fails: the validation is only
`isNaN(parseInt(animeIdStr))`, with no positivity check, so the input
`"-5"` — which does not parse as a positive integer — reaches the
upstream cover lookup, invoked with `-5`. -/
theorem cover_positive_validation_counterexample :
    coverIdsCalled (handleAnimeCoverCommand
      ⟨some "-5", .ok none, true, true, fun _ => true⟩) = [-5] ∧
    ¬ (0 : ℤ) < -5 := by
  constructor
  · decide
  · decide

/-- C8 (amended): the orchestrator validates, before any upstream call,
only that the identifier parses as an integer under `parseInt` (with
its automatic `0x` hex radix).  Whenever the option parses to `n`
(positive or not) and deferral succeeds, the lookup is invoked exactly
once, with `n`; whenever the option is missing or does not parse
(including `"0x"` with no hex digits), no upstream call is made and
(deferral permitting) exactly one validation message is sent. -/
theorem cover_validation_amended (ec : CoverEnv) :
    (∀ (s : String) (n : ℤ), ec.deferOk = true → ec.animeIdStr = some s →
      parseIntJs s = some n →
      coverIdsCalled (handleAnimeCoverCommand ec) = [n]) ∧
    ((ec.animeIdStr = none ∨
      (∃ s, ec.animeIdStr = some s ∧ parseIntJs s = none)) →
      coverIdsCalled (handleAnimeCoverCommand ec) = [] ∧
      (ec.deferOk = true →
        (handleAnimeCoverCommand ec).countP HostCall.isValidationEditCall = 1)) := by
  obtain ⟨so, cr, d, r, eo⟩ := ec
  constructor
  · intro s n hd hso hp
    simp only at hd hso
    subst hd hso
    have hse : s ≠ "" := by
      intro hcon
      rw [hcon] at hp
      have hnil : parseIntJs "" = none := rfl
      rw [hnil] at hp
      cases hp
    rcases hfc : fetchAnimeCoverById cr with e | (_ | url) <;>
      rcases r <;> rcases h0 : eo 0 <;> rcases h1 : eo 1 <;>
      simp [handleAnimeCoverCommand, finalCatch, hse, hp, hfc, h0, h1,
        coverIdsCalled, List.filterMap_cons]
  · intro hbad
    rcases hbad with hnone | ⟨s, hso, hp⟩
    · simp only at hnone
      subst hnone
      rcases d <;> rcases r <;> rcases h0 : eo 0 <;> rcases h1 : eo 1 <;>
        simp [handleAnimeCoverCommand, finalCatch, h0, h1, coverIdsCalled,
          List.filterMap_cons, List.countP_cons, HostCall.isValidationEditCall]
    · simp only at hso
      subst hso
      by_cases hse : s = ""
      · rcases d <;> rcases r <;> rcases h0 : eo 0 <;> rcases h1 : eo 1 <;>
          simp [handleAnimeCoverCommand, finalCatch, hse, h0, h1, coverIdsCalled,
            List.filterMap_cons, List.countP_cons, HostCall.isValidationEditCall]
      · rcases d <;> rcases r <;> rcases h0 : eo 0 <;> rcases h1 : eo 1 <;>
          simp [handleAnimeCoverCommand, finalCatch, hse, hp, h0, h1, coverIdsCalled,
            List.filterMap_cons, List.countP_cons, HostCall.isValidationEditCall]

/-- Witness for `cover_validation_amended`: `"21"` reaches the lookup as
`21` and the hex-radix input `"0x1A"` as `26`; `"abc"` and the
digitless hex prefix `"0x"` (NaN under `parseInt`) make no upstream
call and get one validation message. -/
theorem cover_validation_amended_witness :
    coverIdsCalled (handleAnimeCoverCommand
      ⟨some "21", .ok (some "u"), true, true, fun _ => true⟩) = [21] ∧
    coverIdsCalled (handleAnimeCoverCommand
      ⟨some "0x1A", .ok (some "u"), true, true, fun _ => true⟩) = [26] ∧
    coverIdsCalled (handleAnimeCoverCommand
      ⟨some "abc", .ok (some "u"), true, true, fun _ => true⟩) = [] ∧
    coverIdsCalled (handleAnimeCoverCommand
      ⟨some "0x", .ok (some "u"), true, true, fun _ => true⟩) = [] ∧
    (handleAnimeCoverCommand
      ⟨some "abc", .ok (some "u"), true, true, fun _ => true⟩).countP
        HostCall.isValidationEditCall = 1 ∧
    (handleAnimeCoverCommand
      ⟨some "0x", .ok (some "u"), true, true, fun _ => true⟩).countP
        HostCall.isValidationEditCall = 1 := by
  refine ⟨?_, ?_, ?_, ?_, ?_, ?_⟩
  · exact (cover_validation_amended
      ⟨some "21", .ok (some "u"), true, true, fun _ => true⟩).1 "21" 21 rfl rfl
      (by decide)
  · exact (cover_validation_amended
      ⟨some "0x1A", .ok (some "u"), true, true, fun _ => true⟩).1 "0x1A" 26 rfl rfl
      (by decide)
  · exact ((cover_validation_amended
      ⟨some "abc", .ok (some "u"), true, true, fun _ => true⟩).2
      (Or.inr ⟨"abc", rfl, by decide⟩)).1
  · exact ((cover_validation_amended
      ⟨some "0x", .ok (some "u"), true, true, fun _ => true⟩).2
      (Or.inr ⟨"0x", rfl, by decide⟩)).1
  · exact ((cover_validation_amended
      ⟨some "abc", .ok (some "u"), true, true, fun _ => true⟩).2
      (Or.inr ⟨"abc", rfl, by decide⟩)).2 rfl
  · exact ((cover_validation_amended
      ⟨some "0x", .ok (some "u"), true, true, fun _ => true⟩).2
      (Or.inr ⟨"0x", rfl, by decide⟩)).2 rfl
